import Mathlib

/-!
Shallow embedding of the dummy-rustwlc crate (src/lib.rs, src/handle.rs,
src/callback.rs) for checking the natural-language specification against the
code.  Machine integers (`uintptr_t`, `u32`) are modelled as `Nat`; the
operations below perform no arithmetic on them, so no wrap-around modelling is
needed.  Rust functions taking `&self` and returning `()` may in principle
touch the crate's process-wide mutable state; that state (in src it is exactly
the `rust_logging_fn` static of lib.rs) is made explicit as a `World` value
threaded through every engine-facing operation.  Fields of `World` that stand
for state the crate's real counterpart keeps outside this repository (the
standard output stream and the engine's callback table) are modelled from the
spec and marked as such.
-/

/-- Modelled from the spec: the `types` module is declared in src/lib.rs but its
source is not under src/.  `Point` is the plain value type
Point(x:int, y:int) of spec section 3. -/
structure Point where
  x : Int
  y : Int
deriving DecidableEq

/-- Modelled from the spec: pixel dimensions Size(w:uint, h:uint), always
nonnegative (spec section 3); the `types` module source is not under src/. -/
structure Size where
  w : Nat
  h : Nat
deriving DecidableEq

/-- Modelled from the spec: Geometry = origin Point plus size Size (spec
section 3); the `types` module source is not under src/. -/
structure Geometry where
  origin : Point
  size : Size
deriving DecidableEq

/-- Modelled from the spec: `ViewType` is a bitset of structural flags with an
empty default (spec section 3); the `types` module source is not under src/.
Represented by its underlying bit field. -/
structure ViewType where
  bits : Nat
deriving DecidableEq

/-- The empty `ViewType` flag set (all bits clear). -/
def ViewType.empty : ViewType := ViewType.mk 0

/-- Flag-set containment test of the bitflags pattern: every bit of `f` is set
in `s`. -/
def ViewType.has (s f : ViewType) : Bool := s.bits &&& f.bits == f.bits

/-- Modelled from the spec: `ViewState` is a bitset of runtime flags with an
empty default (spec section 3); the `types` module source is not under src/.
Represented by its underlying bit field. -/
structure ViewState where
  bits : Nat
deriving DecidableEq

/-- The empty `ViewState` flag set (all bits clear). -/
def ViewState.empty : ViewState := ViewState.mk 0

/-- Flag-set containment test of the bitflags pattern: every bit of `f` is set
in `s`. -/
def ViewState.has (s f : ViewState) : Bool := s.bits &&& f.bits == f.bits

/-- Modelled from the spec: the log kinds formatted by the default sink
(spec section 4.5); the `types` module source is not under src/. -/
inductive LogType where
  | Info
  | Warn
  | Error
  | Wayland
deriving DecidableEq

/-- The derived debug rendering of a `LogType`, as interpolated by the default
log callback in src/lib.rs. -/
def LogType.debugStr : LogType → String
  | LogType.Info => "Info"
  | LogType.Warn => "Warn"
  | LogType.Error => "Error"
  | LogType.Wayland => "Wayland"

/-- src/handle.rs: `pub struct WlcView(uintptr_t)` — a view handle carrying one
unsigned integer id. -/
structure WlcView where
  id : Nat
deriving DecidableEq

/-- src/handle.rs: `pub struct WlcOutput(uintptr_t)` — an output handle carrying
one unsigned integer id. -/
structure WlcOutput where
  id : Nat
deriving DecidableEq

/-- The derived `Ord` on the single-field struct `WlcView` compares the
underlying id; this instance states that order. -/
instance : LT WlcView := LT.mk (fun a b => a.id < b.id)

/-- The derived `Ord` on the single-field struct `WlcOutput` compares the
underlying id; this instance states that order. -/
instance : LT WlcOutput := LT.mk (fun a b => a.id < b.id)

/-- src/handle.rs: `impl From(WlcView) for WlcOutput` — copies the id. -/
def WlcOutput.fromView (view : WlcView) : WlcOutput := WlcOutput.mk view.id

/-- src/handle.rs: `impl From(WlcOutput) for WlcView` — copies the id. -/
def WlcView.fromOutput (output : WlcOutput) : WlcView := WlcView.mk output.id

/-- src/handle.rs: `WlcOutput::as_view`, which returns `WlcView::from(self)`. -/
def WlcOutput.as_view (o : WlcOutput) : WlcView := WlcView.fromOutput o

/-- src/handle.rs: `WlcView::as_output`, which returns `WlcOutput::from(self)`. -/
def WlcView.as_output (v : WlcView) : WlcOutput := WlcOutput.fromView v

/-- src/handle.rs: `WlcOutput::dummy(code: u32)` — wraps the code as the id
(the cast from `u32` to `uintptr_t` is lossless). -/
def WlcOutput.dummy (code : Nat) : WlcOutput := WlcOutput.mk code

/-- src/handle.rs: `WlcView::dummy(code: u32)` — wraps the code as the id. -/
def WlcView.dummy (code : Nat) : WlcView := WlcView.mk code

/-- src/handle.rs: `WlcView::root()` returns `WlcView(0)`. -/
def WlcView.root : WlcView := WlcView.mk 0

/-- src/handle.rs: `WlcView::is_root` tests whether the id is 0. -/
def WlcView.is_root (v : WlcView) : Bool := v.id == 0

/-- src/handle.rs: `WlcView::is_window` tests whether the id is nonzero. -/
def WlcView.is_window (v : WlcView) : Bool := v.id != 0

/-- src/lib.rs: `default_log_callback` prints one line
"wlc [kind] text" to standard output.  A Rust log handler is represented here
by the list of lines it prints for a given kind and text. -/
def default_log_callback (log_type : LogType) (text : String) : List String :=
  List.cons (String.append (String.append (String.append "wlc [" log_type.debugStr) "] ") text) List.nil

/-- The process-wide mutable state reachable from this crate.
`rust_logging_fn` embeds the static of src/lib.rs line 24, statically
initialised to `default_log_callback`.  `stdout` is modelled from the spec:
the standard output stream the default sink writes to (spec section 4.5).
`view_created_slot` and `output_created_slot` are modelled from the spec: the
single-slot callback table the engine dispatches from (spec section 4.4); the
engine holding it is not under src/. -/
structure World where
  rust_logging_fn : LogType → String → List String
  stdout : List String
  view_created_slot : Option (WlcView → Bool)
  output_created_slot : Option (WlcOutput → Bool)

/-- The process state at startup: the logging static holds
`default_log_callback` (src/lib.rs line 24), nothing has been printed, and no
callback has ever been registered. -/
def World.init : World := World.mk default_log_callback List.nil Option.none Option.none

/-- src/lib.rs: `log_set_rust_handler` has an empty body — it ignores its
argument and changes no state. -/
def log_set_rust_handler (handler : LogType → String → List String) (w : World) : World := w

/-- src/lib.rs: `log_set_default_handler` calls
`log_set_rust_handler(default_log_callback)`. -/
def log_set_default_handler (w : World) : World :=
  log_set_rust_handler default_log_callback w

/-- Modelled from the spec: emission of a log message is done by the engine,
whose source is not under src/; per spec section 4.5 it routes the kind and
text through the process-wide sink (the `rust_logging_fn` static), whose output
goes to the standard output stream. -/
def wlc_log (log_type : LogType) (text : String) (w : World) : World :=
  World.mk w.rust_logging_fn (w.stdout ++ w.rust_logging_fn log_type text)
    w.view_created_slot w.output_created_slot

/-- src/callback.rs: `view_created` registration — the body is empty, so the
call leaves all process state unchanged. -/
def callback_view_created (cb : WlcView → Bool) (w : World) : World := w

/-- src/callback.rs: `output_created` registration — the body is empty, so the
call leaves all process state unchanged. -/
def callback_output_created (cb : WlcOutput → Bool) (w : World) : World := w

/-- Modelled from the spec: the engine's dispatch of a view-created event
(spec section 4.4) — invoke the registered slot's handler if present, else
drop the event; the engine is not under src/.  Returns the invoked handler's
verdict, or none when no handler ran. -/
def dispatch_view_created (w : World) (v : WlcView) : Option Bool :=
  w.view_created_slot.map (fun h => h v)

/-- Modelled from the spec: the engine's dispatch of an output-created event
(spec section 4.4); the engine is not under src/. -/
def dispatch_output_created (w : World) (o : WlcOutput) : Option Bool :=
  w.output_created_slot.map (fun h => h o)

/-- src/handle.rs: `WlcOutput::get_views` returns `Vec::new()` — the empty
list, reading nothing. -/
def WlcOutput.get_views (w : World) (o : WlcOutput) : List WlcView := List.nil

/-- src/handle.rs: `WlcOutput::set_views` returns
`Err("Currently running dummy-rustwlc")` and changes no state. -/
def WlcOutput.set_views (o : WlcOutput) (views : List WlcView) (w : World) :
    World × Except String Unit :=
  Prod.mk w (Except.error "Currently running dummy-rustwlc")

/-- src/handle.rs: `WlcView::get_output` returns `WlcOutput::dummy(0)`. -/
def WlcView.get_output (w : World) (v : WlcView) : WlcOutput := WlcOutput.dummy 0

/-- src/handle.rs: `WlcView::get_type` returns `ViewType::empty()`. -/
def WlcView.get_type (w : World) (v : WlcView) : ViewType := ViewType.empty

/-- src/handle.rs: `WlcView::set_type` has an empty body — no state changes. -/
def WlcView.set_type (v : WlcView) (view_type : ViewType) (toggle : Bool) (w : World) :
    World := w

/-- src/handle.rs: `WlcView::get_state` returns `ViewState::empty()`. -/
def WlcView.get_state (w : World) (v : WlcView) : ViewState := ViewState.empty

/-- src/handle.rs: `WlcView::set_state` has an empty body — no state changes. -/
def WlcView.set_state (v : WlcView) (state : ViewState) (toggle : Bool) (w : World) :
    World := w

/-- src/handle.rs: `WlcView::get_geometry` returns a zero geometry wrapped in
`Some`. -/
def WlcView.get_geometry (w : World) (v : WlcView) : Option Geometry :=
  Option.some (Geometry.mk (Point.mk 0 0) (Size.mk 0 0))

/-- src/handle.rs: `WlcView::get_visible_geometry` returns a zero geometry. -/
def WlcView.get_visible_geometry (w : World) (v : WlcView) : Geometry :=
  Geometry.mk (Point.mk 0 0) (Size.mk 0 0)

/-- src/handle.rs: `WlcView::get_parent` returns `WlcView::root()`. -/
def WlcView.get_parent (w : World) (v : WlcView) : WlcView := WlcView.root

/-- src/handle.rs: `WlcView::get_title` returns the empty string. -/
def WlcView.get_title (w : World) (v : WlcView) : String := ""

/-- src/handle.rs: `WlcView::get_class` returns the empty string. -/
def WlcView.get_class (w : World) (v : WlcView) : String := ""

/-- src/handle.rs: `WlcView::get_app_id` returns the empty string. -/
def WlcView.get_app_id (w : World) (v : WlcView) : String := ""

/-- The zero geometry: origin (0,0), size 0x0. -/
def zeroGeometry : Geometry := Geometry.mk (Point.mk 0 0) (Size.mk 0 0)

/-- Substring containment, used to state what the log line carries. -/
def strContains (s t : String) : Prop := ∃ p q : String, s = p ++ t ++ q

/-- C1: the claim says `set_state(f, true)` sets bit `f` in the set returned by
`get_state`; it fails at the concrete flag with bit field 1 on view
`dummy 1` starting from the initial process state — after the call,
`get_state` still reports the flag as absent. -/
theorem set_state_true_does_not_set_bit :
    (WlcView.get_state
        (WlcView.set_state (WlcView.dummy 1) (ViewState.mk 1) true World.init)
        (WlcView.dummy 1)).has (ViewState.mk 1) = false := rfl

/-- C1 amended: `set_state` and `set_type` change no process state at all and
`get_state`/`get_type` always return the empty flag set; consequently setting
a flag with toggle=true and then toggle=false leaves the flag set returned by
`get_state`/`get_type` exactly as it was (the restore half of the claim holds
trivially), while `set_state(f, true)` never makes any bit observable. -/
theorem flag_toggles_are_noops :
    (∀ (v : WlcView) (s : ViewState) (t : Bool) (w : World),
        WlcView.set_state v s t w = w) ∧
    (∀ (v : WlcView) (s : ViewType) (t : Bool) (w : World),
        WlcView.set_type v s t w = w) ∧
    (∀ (w : World) (v : WlcView), WlcView.get_state w v = ViewState.empty) ∧
    (∀ (w : World) (v : WlcView), WlcView.get_type w v = ViewType.empty) ∧
    (∀ (w : World) (v : WlcView) (f : ViewState),
        WlcView.get_state
          (WlcView.set_state v f false (WlcView.set_state v f true w)) v =
        WlcView.get_state w v) ∧
    (∀ (w : World) (v : WlcView) (f : ViewType),
        WlcView.get_type
          (WlcView.set_type v f false (WlcView.set_type v f true w)) v =
        WlcView.get_type w v) :=
  And.intro (fun _ _ _ _ => rfl) (And.intro (fun _ _ _ _ => rfl)
    (And.intro (fun _ _ => rfl) (And.intro (fun _ _ => rfl)
      (And.intro (fun _ _ _ => rfl) (fun _ _ _ => rfl)))))

/-- C2: when the supplied list is not a permutation of the output's current
membership as returned by `get_views`, `set_views` returns an error carrying a
message string, and `get_views` observes the same stack for every output
afterwards. -/
theorem set_views_mismatch_fails_and_preserves_stack
    (w : World) (o : WlcOutput) (vs : List WlcView)
    (h : ¬ List.Perm vs (WlcOutput.get_views w o)) :
    (∃ msg : String,
        (WlcOutput.set_views o vs w).2 = Except.error msg) ∧
    (∀ o2 : WlcOutput,
        WlcOutput.get_views (WlcOutput.set_views o vs w).1 o2 =
        WlcOutput.get_views w o2) :=
  And.intro (Exists.intro "Currently running dummy-rustwlc" rfl) (fun _ => rfl)

/-- C2 witness: the list holding only `dummy 1` is not a permutation of the
(empty) membership of output `dummy 0`, and the call fails with a message
while leaving the observed stacks unchanged. -/
theorem set_views_mismatch_fails_and_preserves_stack_witness :
    (∃ msg : String,
        (WlcOutput.set_views (WlcOutput.dummy 0) (List.cons (WlcView.dummy 1) List.nil)
          World.init).2 = Except.error msg) ∧
    (∀ o2 : WlcOutput,
        WlcOutput.get_views
          (WlcOutput.set_views (WlcOutput.dummy 0) (List.cons (WlcView.dummy 1) List.nil)
            World.init).1 o2 =
        WlcOutput.get_views World.init o2) :=
  set_views_mismatch_fails_and_preserves_stack World.init (WlcOutput.dummy 0)
    (List.cons (WlcView.dummy 1) List.nil)
    (fun h => by simpa [WlcOutput.get_views] using h.length_eq)

/-- C3: the claim says that after registering handler A and then handler B for
the view-created kind, B is the handler invoked on a subsequent event of that
kind; at the concrete handlers A = constantly false, B = constantly true and
view `dummy 1`, dispatch invokes nothing at all — in particular not B. -/
theorem second_registered_handler_not_invoked :
    dispatch_view_created
        (callback_view_created (fun _ => true)
          (callback_view_created (fun _ => false) World.init))
        (WlcView.dummy 1) ≠ Option.some true :=
  fun h => Option.noConfusion h

/-- C3 amended: registering view-created or output-created handlers is a
no-op (the registration functions have empty bodies), so after registering A
and then B no handler is stored and a subsequent event of that kind invokes
neither handler: the first handler is indeed unreachable afterwards, but only
because no registered handler is ever invoked, not because the second
replaced it. -/
theorem callback_registration_is_noop :
    (∀ (a b : WlcView → Bool) (w : World),
        callback_view_created b (callback_view_created a w) = w) ∧
    (∀ (a b : WlcOutput → Bool) (w : World),
        callback_output_created b (callback_output_created a w) = w) ∧
    (∀ (a b : WlcView → Bool) (v : WlcView),
        dispatch_view_created
          (callback_view_created b (callback_view_created a World.init)) v =
        Option.none) ∧
    (∀ (a b : WlcOutput → Bool) (o : WlcOutput),
        dispatch_output_created
          (callback_output_created b (callback_output_created a World.init)) o =
        Option.none) :=
  And.intro (fun _ _ _ => rfl) (And.intro (fun _ _ _ => rfl)
    (And.intro (fun _ _ _ => rfl) (fun _ _ _ => rfl)))

/-- C4: every read-path getter is total and returns the type's empty or
default value on every view handle and in every process state: empty strings
for title, class and app id, empty flag sets for type and state, zero
geometry for both geometry getters, and the root handle for the parent. -/
theorem getters_return_defaults :
    (∀ (w : World) (v : WlcView), WlcView.get_title w v = "") ∧
    (∀ (w : World) (v : WlcView), WlcView.get_class w v = "") ∧
    (∀ (w : World) (v : WlcView), WlcView.get_app_id w v = "") ∧
    (∀ (w : World) (v : WlcView), WlcView.get_type w v = ViewType.empty) ∧
    (∀ (w : World) (v : WlcView), WlcView.get_state w v = ViewState.empty) ∧
    (∀ (w : World) (v : WlcView),
        WlcView.get_geometry w v = Option.some zeroGeometry) ∧
    (∀ (w : World) (v : WlcView),
        WlcView.get_visible_geometry w v = zeroGeometry) ∧
    (∀ (w : World) (v : WlcView), WlcView.get_parent w v = WlcView.root) :=
  And.intro (fun _ _ => rfl) (And.intro (fun _ _ => rfl)
    (And.intro (fun _ _ => rfl) (And.intro (fun _ _ => rfl)
      (And.intro (fun _ _ => rfl) (And.intro (fun _ _ => rfl)
        (And.intro (fun _ _ => rfl) (fun _ _ => rfl)))))))

/-- C5: after installing the default log sink and emitting a warning-kind
message "backend unavailable", the standard output stream holds a line
containing both the kind tag "Warn" and the literal message text. -/
theorem default_sink_prints_kind_and_message :
    ∃ line : String,
      line ∈ (wlc_log LogType.Warn "backend unavailable"
                (log_set_default_handler World.init)).stdout ∧
      strContains line "Warn" ∧ strContains line "backend unavailable" :=
  Exists.intro "wlc [Warn] backend unavailable"
    (And.intro (by simp [wlc_log, log_set_default_handler, log_set_rust_handler,
        World.init, default_log_callback, LogType.debugStr]; decide)
      (And.intro
        (Exists.intro "wlc [" (Exists.intro "] backend unavailable" (by decide)))
        (Exists.intro "wlc [Warn] " (Exists.intro "" (by decide)))))

/-- C6: the root handle carries id 0 and equals `dummy 0`; it is root and not
a window; and every handle built from a nonzero id is a window and not root. -/
theorem root_handle_sentinel
    (n : Nat) (h : n ≠ 0) :
    WlcView.root = WlcView.dummy 0 ∧
    WlcView.root.id = 0 ∧
    WlcView.root.is_root = true ∧
    WlcView.root.is_window = false ∧
    (WlcView.dummy n).is_root = false ∧
    (WlcView.dummy n).is_window = true :=
  And.intro rfl (And.intro rfl (And.intro rfl (And.intro rfl
    (And.intro (by simp [WlcView.is_root, WlcView.dummy, h])
      (by simp [WlcView.is_window, WlcView.dummy, h])))))

/-- C6 witness: instantiated at the nonzero id 3. -/
theorem root_handle_sentinel_witness :
    WlcView.root = WlcView.dummy 0 ∧
    WlcView.root.id = 0 ∧
    WlcView.root.is_root = true ∧
    WlcView.root.is_window = false ∧
    (WlcView.dummy 3).is_root = false ∧
    (WlcView.dummy 3).is_window = true :=
  root_handle_sentinel 3 (by decide)

/-- C7: converting a view handle to an output handle and back yields a handle
with exactly the original id, and symmetrically for output handles; both the
`From` conversions and the `as_output`/`as_view` wrappers round-trip. -/
theorem handle_conversion_round_trips :
    (∀ v : WlcView, WlcView.fromOutput (WlcOutput.fromView v) = v) ∧
    (∀ o : WlcOutput, WlcOutput.fromView (WlcView.fromOutput o) = o) ∧
    (∀ v : WlcView, (WlcView.as_output v).as_view = v) ∧
    (∀ o : WlcOutput, (WlcOutput.as_view o).as_output = o) ∧
    (∀ v : WlcView, (WlcView.as_output v).id = v.id) ∧
    (∀ o : WlcOutput, (WlcOutput.as_view o).id = o.id) :=
  And.intro (fun _ => rfl) (And.intro (fun _ => rfl) (And.intro (fun _ => rfl)
    (And.intro (fun _ => rfl) (And.intro (fun _ => rfl) (fun _ => rfl)))))

/-- C8: handles of the same kind are equal exactly when their underlying ids
are, and the order on handles agrees with the numeric order of the ids; in
particular handles built from distinct ids compare unequal. -/
theorem handle_eq_and_order_follow_id :
    (∀ x y : WlcView, x = y ↔ x.id = y.id) ∧
    (∀ x y : WlcOutput, x = y ↔ x.id = y.id) ∧
    (∀ a b : Nat, WlcView.dummy a = WlcView.dummy b ↔ a = b) ∧
    (∀ a b : Nat, WlcOutput.dummy a = WlcOutput.dummy b ↔ a = b) ∧
    (∀ a b : Nat, WlcView.dummy a < WlcView.dummy b ↔ a < b) ∧
    (∀ a b : Nat, WlcOutput.dummy a < WlcOutput.dummy b ↔ a < b) :=
  And.intro (fun x y => by cases x; cases y; simp)
    (And.intro (fun x y => by cases x; cases y; simp)
      (And.intro (fun a b => by simp [WlcView.dummy])
        (And.intro (fun a b => by simp [WlcOutput.dummy])
          (And.intro (fun a b => Iff.rfl) (fun a b => Iff.rfl)))))

/-- C9: `set_views` fails with the fixed error message
"Currently running dummy-rustwlc" for every output, every supplied list (the
current membership, such as the empty list, included) and every process
state, and never changes any state: the operation never succeeds. -/
theorem set_views_always_fails :
    ∀ (w : World) (o : WlcOutput) (vs : List WlcView),
      (WlcOutput.set_views o vs w).2 =
        Except.error "Currently running dummy-rustwlc" ∧
      (WlcOutput.set_views o vs w).1 = w :=
  fun _ _ _ => And.intro rfl rfl

/-- C10: every view reports `dummy 0` as its output, every output reports an
empty stack, and therefore no view ever appears in the stack of the output it
reports as its own. -/
theorem stacking_views_never_consistent :
    (∀ (w : World) (v : WlcView), WlcView.get_output w v = WlcOutput.dummy 0) ∧
    (∀ (w : World) (o : WlcOutput), WlcOutput.get_views w o = List.nil) ∧
    (∀ (w : World) (v : WlcView),
        v ∉ WlcOutput.get_views w (WlcView.get_output w v)) :=
  And.intro (fun _ _ => rfl) (And.intro (fun _ _ => rfl)
    (fun _ _ h => by simp [WlcOutput.get_views] at h))
